import Mathlib

/-!
Shallow embedding of `src/neo4jChatbot.py`: a single-file console chatbot
that wires an LLM-driven agent to a Neo4j Cypher-QA chain.

External collaborators (the LLM, the graph database, the agent executor,
the chat-history store, the OS uuid source) are modelled as parameters:
a call that can raise is a value of `Except String α` whose `.error`
carries `str(e)`, the Python exception text.  Effects performed by the
repository's own code (logging via `log_error`, console `print`s, the
number of chain/LLM invocations) are recorded explicitly in result
records, in program order.
-/

namespace Neo4jChatbot

/-- An external callable that takes a string and either returns a result
or raises an exception with the given text.  Used for
`cypher_chain.invoke` (restricted to the query string) and `llm.invoke`. -/
def Chain : Type := String → Except String String

deriving instance DecidableEq for Except

/-- Observable outcome of running one agent tool: the value returned to
the agent (or the exception it re-raises), the `log_error` entries
written, the strings printed to the console, and how many times the
Cypher chain / the raw LLM were invoked. -/
structure ToolEffects where
  outcome : Except String String
  logs : List String
  console : List String
  chainCalls : Nat
  llmCalls : Nat
  deriving DecidableEq, Repr

/-- Embedding of `def cypher_qa(query)` (lines 88-95): one `cypher_chain.invoke` in a
`try`; on exception it logs `"Cypher error occurred: " + str(e)`, does
`print(e)`, and returns its fixed fallback string. -/
def cypher_qa (cypher_chain : Chain) (query : String) : ToolEffects :=
  match cypher_chain query with
  | Except.ok result => ⟨Except.ok result, [], [], 1, 0⟩
  | Except.error e =>
      ⟨Except.ok "There was an issue processing your request. Please try again or contact support.",
       ["Cypher error occurred: " ++ e], [e], 1, 0⟩

/-- Embedding of `def order_tracking(query)` (lines 97-104). -/
def order_tracking (cypher_chain : Chain) (query : String) : ToolEffects :=
  match cypher_chain query with
  | Except.ok result => ⟨Except.ok result, [], [], 1, 0⟩
  | Except.error e =>
      ⟨Except.ok "Unable to track the order at the moment. Please try again later or contact support.",
       ["Cypher error occurred: " ++ e], [e], 1, 0⟩

/-- Embedding of `def supplier_info(query)` (lines 106-113). -/
def supplier_info (cypher_chain : Chain) (query : String) : ToolEffects :=
  match cypher_chain query with
  | Except.ok result => ⟨Except.ok result, [], [], 1, 0⟩
  | Except.error e =>
      ⟨Except.ok "Unable to fetch supplier information. Please try again later or contact support.",
       ["Cypher error occurred: " ++ e], [e], 1, 0⟩

/-- Embedding of `def warehouse_inventory(query)` (lines 115-122). -/
def warehouse_inventory (cypher_chain : Chain) (query : String) : ToolEffects :=
  match cypher_chain query with
  | Except.ok result => ⟨Except.ok result, [], [], 1, 0⟩
  | Except.error e =>
      ⟨Except.ok "Unable to fetch warehouse inventory at the moment. Please try again later or contact support.",
       ["Cypher error occurred: " ++ e], [e], 1, 0⟩

/-- Embedding of `def purchase_order_info(query)` (lines 124-131). -/
def purchase_order_info (cypher_chain : Chain) (query : String) : ToolEffects :=
  match cypher_chain query with
  | Except.ok result => ⟨Except.ok result, [], [], 1, 0⟩
  | Except.error e =>
      ⟨Except.ok "Unable to retrieve purchase order information. Please try again later or contact support.",
       ["Cypher error occurred: " ++ e], [e], 1, 0⟩

/-- Embedding of `def customer_info(query)` (lines 133-140). -/
def customer_info (cypher_chain : Chain) (query : String) : ToolEffects :=
  match cypher_chain query with
  | Except.ok result => ⟨Except.ok result, [], [], 1, 0⟩
  | Except.error e =>
      ⟨Except.ok "Unable to retrieve customer information. Please try again later or contact support.",
       ["Cypher error occurred: " ++ e], [e], 1, 0⟩

/-- The callable of the `General Chat` tool is the bare `llm.invoke`
(line 176): one raw LLM call, no Cypher chain, no `try` boundary, so an
exception propagates. -/
def llm_invoke_tool (llm_invoke : Chain) (query : String) : ToolEffects :=
  match llm_invoke query with
  | Except.ok r => ⟨Except.ok r, [], [], 0, 1⟩
  | Except.error e => ⟨Except.error e, [], [], 0, 1⟩

/-- The shape every one of the six database capabilities instantiates:
invoke the shared chain once; on exception log, `print(e)` and return
`fallback`.  The six source functions are proved equal to this, each at
its own fallback string. -/
def capabilityTool (fallback : String) (cypher_chain : Chain) (query : String) : ToolEffects :=
  match cypher_chain query with
  | Except.ok result => ⟨Except.ok result, [], [], 1, 0⟩
  | Except.error e => ⟨Except.ok fallback, ["Cypher error occurred: " ++ e], [e], 1, 0⟩

/-- A `Tool.from_function` entry (lines 142-178): name, description, callable. -/
structure AgentTool where
  name : String
  description : String
  func : String → ToolEffects

/-- Embedding of the `tools` list (lines 142-178), parametrised by the two external
callables it closes over. -/
def tools (cypher_chain llm_invoke : Chain) : List AgentTool :=
  [⟨"Product Information",
    "Answer product-related and warehouse-related questions using Cypher in the Neo4j database.",
    cypher_qa cypher_chain⟩,
   ⟨"Order Tracking",
    "Help track orders based on customer input using Cypher queries in the Neo4j database.",
    order_tracking cypher_chain⟩,
   ⟨"Supplier Information",
    "Fetch supplier-related information using Cypher queries in the Neo4j database.",
    supplier_info cypher_chain⟩,
   ⟨"Warehouse Inventory",
    "Fetch the status of warehouse inventory using Cypher queries in the Neo4j database.",
    warehouse_inventory cypher_chain⟩,
   ⟨"Purchase Order Information",
    "Retrieve information related to purchase orders using Cypher queries in the Neo4j database.",
    purchase_order_info cypher_chain⟩,
   ⟨"Customer Information",
    "Retrieve customer-related information using Cypher queries in the Neo4j database.",
    customer_info cypher_chain⟩,
   ⟨"General Chat",
    "For general questions or unstructured queries.",
    llm_invoke_tool llm_invoke⟩]

/-- State of the process-wide uuid source behind `uuid.uuid4()`:
`stream` is the sequence of string renderings the source would
successively produce, `next` the position of the next draw. -/
structure UuidGen where
  stream : Nat → String
  next : Nat

/-- Embedding of `def get_session_id()` (lines 18-23): `str(uuid.uuid4())` — one draw
from the uuid source, advancing its state. -/
def get_session_id (g : UuidGen) : String × UuidGen :=
  (g.stream g.next, ⟨g.stream, g.next + 1⟩)

/-- The agent pipeline `chat_agent.invoke` (router + executor + history):
given the configured session id and the user input, either returns a
response dictionary (string keys and values) or raises. -/
def Pipeline : Type := String → String → Except String (List (String × String))

/-- Rendering of `str(KeyError(k))` in Python: the key in single quotes. -/
def keyErrorText (k : String) : String := "\x27" ++ k ++ "\x27"

/-- One console event: `print` of a plain string, or `print(response)`
of the raw response dictionary. -/
inductive ConsoleEvent where
  | text : String → ConsoleEvent
  | value : List (String × String) → ConsoleEvent
  deriving DecidableEq, Repr

/-- Everything observable about one `generate_response` call. -/
structure GenResult where
  ret : String
  gen : UuidGen
  logs : List String
  console : List ConsoleEvent
  session : String

/-- Embedding of `def generate_response(user_input)` (lines 252-275).  The `try` body
draws a fresh session id, invokes the pipeline, `print(response)`, then
evaluates `response['output']` — a `KeyError` when the key is absent —
and tests its truthiness (the empty string is falsy).  The `except`
catches any exception from the body, logs
`"Error generating response: " + str(e)` and returns the generic
fallback. -/
def generate_response (pipeline : Pipeline) (g : UuidGen) (user_input : String) : GenResult :=
  let sid := (get_session_id g).1
  let g2 := (get_session_id g).2
  match pipeline sid user_input with
  | Except.error e =>
      ⟨"There was an issue processing your request. Please try again later or contact support.",
       g2, ["Error generating response: " ++ e], [], sid⟩
  | Except.ok response =>
      match response.lookup "output" with
      | none =>
          ⟨"There was an issue processing your request. Please try again later or contact support.",
           g2, ["Error generating response: " ++ keyErrorText "output"],
           [ConsoleEvent.value response], sid⟩
      | some out =>
          if out = "" then
            ⟨"I couldn\x27t find the exact information in the database. Please try again or contact support.",
             g2, [], [ConsoleEvent.value response], sid⟩
          else
            ⟨out, g2, [], [ConsoleEvent.value response], sid⟩

/-- Python `user_input.lower()`: character-wise lowering. -/
def pyLower (s : String) : String := String.mk (s.data.map Char.toLower)

/-- The exit test of the loop (line 282): `user_input.lower() in ['exit', 'quit']`. -/
def exitTest (user_input : String) : Bool :=
  (["exit", "quit"] : List String).contains (pyLower user_input)

/-- Observable trace of a run of the console loop over a finite script
of input lines: console events, log entries, the inputs actually passed
to `generate_response`, the session ids minted for those calls, and
whether the loop exited via the break statement. -/
structure LoopTrace where
  console : List ConsoleEvent
  logs : List String
  responded : List String
  sessions : List String
  exited : Bool

/-- The `while True` body of `chat_loop` (lines 280-286), run over a
finite list of stdin lines.  Each iteration prints the `"You: "` prompt,
tests the exit condition, and otherwise calls `generate_response` and
prints `"Chatbot: "` plus its result.  An exhausted script ends the
trace with `exited = false` (in Python, `input()` would raise there). -/
def chat_loop_body (pipeline : Pipeline) : UuidGen → List String → LoopTrace
  | _, [] => ⟨[], [], [], [], false⟩
  | g, line :: rest =>
      if exitTest line then
        ⟨[ConsoleEvent.text "You: ", ConsoleEvent.text "Chatbot: Goodbye!"], [], [], [], true⟩
      else
        let r := generate_response pipeline g line
        let t := chat_loop_body pipeline r.gen rest
        ⟨[ConsoleEvent.text "You: "] ++ r.console
           ++ [ConsoleEvent.text ("Chatbot: " ++ r.ret)] ++ t.console,
         r.logs ++ t.logs,
         line :: t.responded,
         r.session :: t.sessions,
         t.exited⟩

/-- Embedding of `def chat_loop()` (lines 278-286): the greeting print, then the loop. -/
def chat_loop (pipeline : Pipeline) (g : UuidGen) (lines : List String) : LoopTrace :=
  let t := chat_loop_body pipeline g lines
  ⟨ConsoleEvent.text "Hello! I am your product chatbot. How can I assist you today?" :: t.console,
   t.logs, t.responded, t.sessions, t.exited⟩

/-- Text of `CYPHER_GENERATION_TEMPLATE` (lines 55-85) before the
`{question}` slot, with the double braces of the source rendered to literal braces
as `PromptTemplate` does. -/
def cypherPromptPartA : String :=
  "\nYou are an expert Neo4j Developer translating user questions into Cypher to answer questions about products and provide recommendations.\nConvert the user\x27s question based on the schema provided.\n\nInstructions:\n- Use only the provided Nodes and Relationships in the schema.\n- Use only the provided relationship types and properties in the schema.\n- Cypher Query should start with \"USE neo4j\" every time.\n- toLower function should be used for all attributes in the schema.\n- and convert every attribute to string before using it in the query.\n- always use `WHERE` clauses with `CONTAINS` for partial string matching (Don\x27t use attributes names after `CONTAINS`)\n- check the user input has a word in the schema such as Nodes,Relationships and Properties.\n\nSchema:\nNodes:\n- CompanyNode Labels and Properties:\n  [\x27Customer\x27]: [\x27CustomerCode\x27, \x27CustomerName\x27]\n  [\x27Supplier\x27]: [\x27BuyerCode\x27, \x27Supplier\x27,\x27SupplierName\x27]\n  [\x27Product\x27]: [\x27ItemCost\x27, \x27ItemType\x27, \x27PartDescription\x27, \x27PartNo\x27, \x27PriceWithoutTax\x27]\n \nRelationship Types and Properties:\n- (Customer)-[:PLACES]->(SalesOrder)\n- (SalesOrder)-[:INCLUDES_PRODUCT\x7b OrderQty, ShippedQty, BOQty\x7d]->(Product)\n- (SalesOrder)-[:DISPATCHED_BY]->(Warehouse)\n- (Warehouse)-[:DELIVERS_TO]->(Customer)\n- (Company)-[:OWNS]->(Warehouse)\n- (Company)-[:ISSUES]->(PurchaseOrder)\n\nQuestion: "

/-- Text of `CYPHER_GENERATION_TEMPLATE` after the `{question}` slot. -/
def cypherPromptPartB : String :=
  "\n\n"

/-- The Cypher-generation prompt as rendered by `cypher_chain` for a
given question: the question text is embedded verbatim; no date (or any
other) rewriting happens in this code. -/
def renderCypherPrompt (question : String) : String :=
  cypherPromptPartA ++ question ++ cypherPromptPartB

/-- Agent-prompt f-string (lines 185-227), literal text before the first
`{current_month_name}` interpolation; `{{ }}` render to literal braces. -/
def agentPromptPart0 : String :=
  "\nYou are an expert in answering product-related questions by accessing a Neo4j database and generating Cypher queries.\nWhen the user asks about products, sales, orders, warehouses, suppliers, or customers, use the corresponding tool.\nIf the question is general or does not require database access, use \x27General Chat\x27.\nlimit output to maximum 5 responses.\nLimit responses to the **final answer only**. Do not include additional action metadata in the response.                                            \n\nDate Interpretation Guidelines:\n1. When the input contains \"this month,\" interpret it as \""

/-- Literal text between `{current_month_name}` and `{current_year}` on
source line 193. -/
def agentPromptPart1 : String :=
  " "

/-- Literal text between the first and the second `{current_year}`. -/
def agentPromptPart2 : String :=
  "\".\n2. For \"this week\" or \"today,\" use the specific date range based on the current date.\n3. If a specific month is mentioned without a year, interpret it as \""

/-- Literal text between the second `{current_year}` and the last `{current_month_name}`. -/
def agentPromptPart3 : String :=
  "\" unless the year is specified otherwise.\n4. If the input is unclear about the date, ask the user to clarify, specifying both month and year.\n\nTOOLS:\n------\nYou have access to the following tools:\n\x7btools\x7d\n\nTo use a tool, follow this format:\nThought: Do I need to use a tool? Yes\nAction: the action to take, should be one of [\x7btool_names\x7d]\nAction Input: the input to the action\nObservation: the result of the action\n\nWhen you have a response to say to the Human, or if you do not need to use a tool, respond in this format:\nThought: Do I need to use a tool? No\n\nLogic for Final Answer:\n- If the user input matches with specific schema terms, identify relevant nodes, properties, and relationships and construct the Cypher query accordingly.\n- If input is a simple greeting like \"Hello\" or \"Hi\", respond with the generated Final Answer: your response here.\n- For simple numbers, prompt for specifics related to products, sales, warehouses, orders, or suppliers.\n- For sensitive inquiries, respond with:\n  Final Answer: Please contact ABC Customer Service for assistance with products, sales, warehouses, orders, or suppliers.\n- For date-related questions with terms like \"this month\" or \""

/-- Literal text after the last `{current_month_name}` (line 218). -/
def agentPromptPart4 : String :=
  "\", automatically substitute with the appropriate month and year.\n- If none of the above conditions are met, respond with:\n  Final Answer: Could you please provide more details related to products, sales, warehouses, orders, or suppliers at ABC?\n\nPrevious conversation history:\n\x7bchat_history\x7d\n\nNew input: \x7binput\x7d\n\x7bagent_scratchpad\x7d\n"

/-- The agent-prompt template text as built at startup (lines 180-227):
the f-string interpolates `current_month_name` and `current_year` taken
from `datetime.now()`, here parameters of the embedding. -/
def agentPromptText (month : String) (year : Nat) : String :=
  agentPromptPart0 ++ month ++ agentPromptPart1 ++ toString year
    ++ agentPromptPart2 ++ toString year ++ agentPromptPart3 ++ month ++ agentPromptPart4

/-! Helper lemmas shared by several claim proofs. -/

/-- The final generator state and the session id used by one
`generate_response` call do not depend on the pipeline outcome. -/
theorem generate_response_gen_session (p : Pipeline) (g : UuidGen) (input : String) :
    (generate_response p g input).gen = ⟨g.stream, g.next + 1⟩ ∧
    (generate_response p g input).session = g.stream g.next := by
  cases hp : p (g.stream g.next) input with
  | error e => simp [generate_response, get_session_id, hp]
  | ok resp =>
    cases hl : resp.lookup "output" with
    | none => simp [generate_response, get_session_id, hp, hl]
    | some v =>
      by_cases hv : v = "" <;> simp [generate_response, get_session_id, hp, hl, hv]

/-- The exit test of the loop holds exactly on lowercased equality with
one of the two tokens. -/
theorem exitTest_iff (line : String) :
    exitTest line = true ↔ (pyLower line = "exit" ∨ pyLower line = "quit") := by
  simp [exitTest, List.contains]

/-- Strings of distinct repeat lengths differ (a concrete injective uuid
stream used to discharge uniqueness hypotheses on witnesses). -/
theorem replicate_b_inj (i j : Nat)
    (h : String.mk (List.replicate i 'b') = String.mk (List.replicate j 'b')) : i = j := by
  have h2 := congrArg String.length h
  simpa [String.length] using h2

/-- Claim C2: for every input on which the chain invocation raises, each
of the six capability functions returns the exact fallback string
registered for that capability, writes exactly one log entry containing
the original error text, and invokes the chain exactly once, neither
retrying nor re-raising. -/
theorem claim2_capability_error_handling (chain : Chain) (q e : String)
    (h : chain q = Except.error e) :
    cypher_qa chain q =
      ⟨Except.ok "There was an issue processing your request. Please try again or contact support.",
       ["Cypher error occurred: " ++ e], [e], 1, 0⟩ ∧
    order_tracking chain q =
      ⟨Except.ok "Unable to track the order at the moment. Please try again later or contact support.",
       ["Cypher error occurred: " ++ e], [e], 1, 0⟩ ∧
    supplier_info chain q =
      ⟨Except.ok "Unable to fetch supplier information. Please try again later or contact support.",
       ["Cypher error occurred: " ++ e], [e], 1, 0⟩ ∧
    warehouse_inventory chain q =
      ⟨Except.ok "Unable to fetch warehouse inventory at the moment. Please try again later or contact support.",
       ["Cypher error occurred: " ++ e], [e], 1, 0⟩ ∧
    purchase_order_info chain q =
      ⟨Except.ok "Unable to retrieve purchase order information. Please try again later or contact support.",
       ["Cypher error occurred: " ++ e], [e], 1, 0⟩ ∧
    customer_info chain q =
      ⟨Except.ok "Unable to retrieve customer information. Please try again later or contact support.",
       ["Cypher error occurred: " ++ e], [e], 1, 0⟩ ∧
    (∃ a b, "Cypher error occurred: " ++ e = a ++ e ++ b) := by
  refine ⟨?_, ?_, ?_, ?_, ?_, ?_, ⟨"Cypher error occurred: ", "", by simp⟩⟩ <;>
    simp [cypher_qa, order_tracking, supplier_info, warehouse_inventory,
      purchase_order_info, customer_info, h]

/-- Witness for claim C2 at a concrete failing chain. -/
theorem claim2_witness :
    cypher_qa (fun _ => Except.error "socket timeout") "orders" =
      ⟨Except.ok "There was an issue processing your request. Please try again or contact support.",
       ["Cypher error occurred: " ++ "socket timeout"], ["socket timeout"], 1, 0⟩ ∧
    order_tracking (fun _ => Except.error "socket timeout") "orders" =
      ⟨Except.ok "Unable to track the order at the moment. Please try again later or contact support.",
       ["Cypher error occurred: " ++ "socket timeout"], ["socket timeout"], 1, 0⟩ ∧
    supplier_info (fun _ => Except.error "socket timeout") "orders" =
      ⟨Except.ok "Unable to fetch supplier information. Please try again later or contact support.",
       ["Cypher error occurred: " ++ "socket timeout"], ["socket timeout"], 1, 0⟩ ∧
    warehouse_inventory (fun _ => Except.error "socket timeout") "orders" =
      ⟨Except.ok "Unable to fetch warehouse inventory at the moment. Please try again later or contact support.",
       ["Cypher error occurred: " ++ "socket timeout"], ["socket timeout"], 1, 0⟩ ∧
    purchase_order_info (fun _ => Except.error "socket timeout") "orders" =
      ⟨Except.ok "Unable to retrieve purchase order information. Please try again later or contact support.",
       ["Cypher error occurred: " ++ "socket timeout"], ["socket timeout"], 1, 0⟩ ∧
    customer_info (fun _ => Except.error "socket timeout") "orders" =
      ⟨Except.ok "Unable to retrieve customer information. Please try again later or contact support.",
       ["Cypher error occurred: " ++ "socket timeout"], ["socket timeout"], 1, 0⟩ ∧
    (∃ a b, "Cypher error occurred: " ++ "socket timeout" = a ++ "socket timeout" ++ b) :=
  claim2_capability_error_handling (fun _ => Except.error "socket timeout") "orders"
    "socket timeout" rfl

/-- Claim C4: exactly seven named capabilities are exposed; each of the
six database capabilities equals the shared forwarding shape
`capabilityTool` at its own fallback string (so the six are pairwise
equal except for the fallback), and the seventh, General Chat, forwards
directly to the raw LLM invocation with no query-generation step. -/
theorem claim4_seven_tools (chain llm : Chain) (q : String) :
    (tools chain llm).length = 7 ∧
    (tools chain llm).map AgentTool.name =
      ["Product Information", "Order Tracking", "Supplier Information",
       "Warehouse Inventory", "Purchase Order Information", "Customer Information",
       "General Chat"] ∧
    (tools chain llm).map AgentTool.func =
      [cypher_qa chain, order_tracking chain, supplier_info chain,
       warehouse_inventory chain, purchase_order_info chain, customer_info chain,
       llm_invoke_tool llm] ∧
    cypher_qa chain q =
      capabilityTool "There was an issue processing your request. Please try again or contact support." chain q ∧
    order_tracking chain q =
      capabilityTool "Unable to track the order at the moment. Please try again later or contact support." chain q ∧
    supplier_info chain q =
      capabilityTool "Unable to fetch supplier information. Please try again later or contact support." chain q ∧
    warehouse_inventory chain q =
      capabilityTool "Unable to fetch warehouse inventory at the moment. Please try again later or contact support." chain q ∧
    purchase_order_info chain q =
      capabilityTool "Unable to retrieve purchase order information. Please try again later or contact support." chain q ∧
    customer_info chain q =
      capabilityTool "Unable to retrieve customer information. Please try again later or contact support." chain q ∧
    (llm_invoke_tool llm q).chainCalls = 0 ∧
    (llm_invoke_tool llm q).llmCalls = 1 ∧
    (llm_invoke_tool llm q).outcome = llm q := by
  refine ⟨rfl, rfl, rfl, ?_, ?_, ?_, ?_, ?_, ?_, ?_, ?_, ?_⟩
  · cases hc : chain q <;> simp [cypher_qa, capabilityTool, hc]
  · cases hc : chain q <;> simp [order_tracking, capabilityTool, hc]
  · cases hc : chain q <;> simp [supplier_info, capabilityTool, hc]
  · cases hc : chain q <;> simp [warehouse_inventory, capabilityTool, hc]
  · cases hc : chain q <;> simp [purchase_order_info, capabilityTool, hc]
  · cases hc : chain q <;> simp [customer_info, capabilityTool, hc]
  · cases hl : llm q <;> simp [llm_invoke_tool, hl]
  · cases hl : llm q <;> simp [llm_invoke_tool, hl]
  · cases hl : llm q <;> simp [llm_invoke_tool, hl]

/-- Counterexample for claim C1 as stated: a successful pipeline result
with no output key makes `generate_response` return the generic error
string, not the claimed could-not-find fallback. -/
theorem claim1_counterexample :
    (((fun _ _ => Except.ok []) : Pipeline) ((get_session_id ⟨fun _ => "u", 0⟩).1) "hello"
        = Except.ok [] ∧
     ([] : List (String × String)).lookup "output" = none) ∧
    (generate_response (fun _ _ => Except.ok []) ⟨fun _ => "u", 0⟩ "hello").ret
        ≠ "I couldn\x27t find the exact information in the database. Please try again or contact support." ∧
    (generate_response (fun _ _ => Except.ok []) ⟨fun _ => "u", 0⟩ "hello").ret
        = "There was an issue processing your request. Please try again later or contact support." := by
  exact ⟨⟨rfl, rfl⟩, by decide, rfl⟩

/-- Claim C1 as amended: on a successful pipeline call, an output field
present but empty yields the could-not-find fallback; a nonempty output
field is returned unchanged; an absent output field raises a `KeyError`
that the catch-all turns into the generic error string instead. -/
theorem claim1_output_field_handling (p : Pipeline) (g : UuidGen) (input : String)
    (resp : List (String × String))
    (h : p ((get_session_id g).1) input = Except.ok resp) :
    (resp.lookup "output" = some "" →
      (generate_response p g input).ret =
        "I couldn\x27t find the exact information in the database. Please try again or contact support.") ∧
    (∀ v, resp.lookup "output" = some v → v ≠ "" →
      (generate_response p g input).ret = v) ∧
    (resp.lookup "output" = none →
      (generate_response p g input).ret =
        "There was an issue processing your request. Please try again later or contact support.") := by
  have h2 : p (g.stream g.next) input = Except.ok resp := h
  refine ⟨?_, ?_, ?_⟩
  · intro hl; simp [generate_response, get_session_id, h2, hl]
  · intro v hl hv; simp [generate_response, get_session_id, h2, hl, hv]
  · intro hl; simp [generate_response, get_session_id, h2, hl]

/-- Witness for the amended claim C1: a nonempty output field is passed
through unchanged, an empty one yields the could-not-find fallback. -/
theorem claim1_witness :
    (generate_response (fun _ _ => Except.ok [("output", "42 orders")])
        ⟨fun _ => "u", 0⟩ "hi").ret = "42 orders" ∧
    (generate_response (fun _ _ => Except.ok [("output", "")])
        ⟨fun _ => "u", 0⟩ "hi").ret =
      "I couldn\x27t find the exact information in the database. Please try again or contact support." :=
  ⟨(claim1_output_field_handling (fun _ _ => Except.ok [("output", "42 orders")])
      ⟨fun _ => "u", 0⟩ "hi" [("output", "42 orders")] rfl).2.1 "42 orders" rfl (by decide),
   (claim1_output_field_handling (fun _ _ => Except.ok [("output", "")])
      ⟨fun _ => "u", 0⟩ "hi" [("output", "")] rfl).1 rfl⟩

/-- Claim C9: `generate_response` is total at its public interface: a
pipeline exception yields the generic error string (and one log entry
with the error text); a successful result lacking the output key yields
the generic error string via the caught `KeyError`; and in every case
the returned value is one of the generic string, the could-not-find
fallback, or the output field itself — never a propagated exception. -/
theorem claim9_generate_response_total (p : Pipeline) (g : UuidGen) (input : String) :
    (∀ e, p ((get_session_id g).1) input = Except.error e →
      (generate_response p g input).ret =
        "There was an issue processing your request. Please try again later or contact support." ∧
      (generate_response p g input).logs = ["Error generating response: " ++ e]) ∧
    (∀ resp, p ((get_session_id g).1) input = Except.ok resp →
      resp.lookup "output" = none →
      (generate_response p g input).ret =
        "There was an issue processing your request. Please try again later or contact support." ∧
      (generate_response p g input).logs =
        ["Error generating response: " ++ keyErrorText "output"]) ∧
    ((generate_response p g input).ret =
        "There was an issue processing your request. Please try again later or contact support." ∨
     (generate_response p g input).ret =
        "I couldn\x27t find the exact information in the database. Please try again or contact support." ∨
     (∃ resp v, p ((get_session_id g).1) input = Except.ok resp ∧
        resp.lookup "output" = some v ∧ (generate_response p g input).ret = v)) := by
  refine ⟨?_, ?_, ?_⟩
  · intro e he
    have he2 : p (g.stream g.next) input = Except.error e := he
    simp [generate_response, get_session_id, he2]
  · intro resp hr hl
    have hr2 : p (g.stream g.next) input = Except.ok resp := hr
    simp [generate_response, get_session_id, hr2, hl]
  · cases hp : p (g.stream g.next) input with
    | error e => left; simp [generate_response, get_session_id, hp]
    | ok resp =>
      cases hl : resp.lookup "output" with
      | none => left; simp [generate_response, get_session_id, hp, hl]
      | some v =>
        by_cases hv : v = ""
        · right; left; simp [generate_response, get_session_id, hp, hl, hv]
        · right; right
          exact ⟨resp, v, hp, hl, by simp [generate_response, get_session_id, hp, hl, hv]⟩

/-- Witness for claim C9 at a raising pipeline. -/
theorem claim9_witness :
    (generate_response (fun _ _ => Except.error "connection refused")
        ⟨fun _ => "u", 0⟩ "hello").ret =
      "There was an issue processing your request. Please try again later or contact support." ∧
    (generate_response (fun _ _ => Except.error "connection refused")
        ⟨fun _ => "u", 0⟩ "hello").logs =
      ["Error generating response: " ++ "connection refused"] :=
  (claim9_generate_response_total (fun _ _ => Except.error "connection refused")
      ⟨fun _ => "u", 0⟩ "hello").1 "connection refused" rfl

/-- Counterexample for claim C3 as stated: on a chain exception the
capability handler prints the raw exception text to the console
(`print(e)`), so console output is not limited to fixed fallback
sentences. -/
theorem claim3_counterexample :
    (cypher_qa (fun _ => Except.error "division by zero") "list orders").console
        = ["division by zero"] ∧
    (cypher_qa (fun _ => Except.error "division by zero") "list orders").outcome
        = Except.ok "There was an issue processing your request. Please try again or contact support." ∧
    "division by zero"
        ≠ "There was an issue processing your request. Please try again or contact support." := by
  exact ⟨rfl, rfl, by decide⟩

/-- Claim C3 as amended: on a delegated-call exception each capability
hands a fixed fallback sentence back into the pipeline, but it also
prints the raw exception text to the console, so the exception text does
reach the console even though the returned string is always fixed. -/
theorem claim3_console_behavior (chain : Chain) (q e : String)
    (h : chain q = Except.error e) :
    (cypher_qa chain q).console = [e] ∧
    (order_tracking chain q).console = [e] ∧
    (supplier_info chain q).console = [e] ∧
    (warehouse_inventory chain q).console = [e] ∧
    (purchase_order_info chain q).console = [e] ∧
    (customer_info chain q).console = [e] ∧
    (cypher_qa chain q).outcome
      = Except.ok "There was an issue processing your request. Please try again or contact support." := by
  simp [cypher_qa, order_tracking, supplier_info, warehouse_inventory,
    purchase_order_info, customer_info, h]

/-- Witness for the amended claim C3 at a concrete failing chain. -/
theorem claim3_witness :
    (cypher_qa (fun _ => Except.error "index error") "q").console = ["index error"] ∧
    (order_tracking (fun _ => Except.error "index error") "q").console = ["index error"] ∧
    (supplier_info (fun _ => Except.error "index error") "q").console = ["index error"] ∧
    (warehouse_inventory (fun _ => Except.error "index error") "q").console = ["index error"] ∧
    (purchase_order_info (fun _ => Except.error "index error") "q").console = ["index error"] ∧
    (customer_info (fun _ => Except.error "index error") "q").console = ["index error"] ∧
    (cypher_qa (fun _ => Except.error "index error") "q").outcome
      = Except.ok "There was an issue processing your request. Please try again or contact support." :=
  claim3_console_behavior (fun _ => Except.error "index error") "q" "index error" rfl

/-- Claim C5: a console line whose lowercasing is exactly exit or quit
makes the loop terminate without calling `generate_response`; any other
line is passed to `generate_response` and the result is printed with the
Chatbot prompt. -/
theorem claim5_loop_exit (p : Pipeline) (g : UuidGen) (line : String) (rest : List String) :
    ((pyLower line = "exit" ∨ pyLower line = "quit") →
      (chat_loop_body p g (line :: rest)).responded = [] ∧
      (chat_loop_body p g (line :: rest)).sessions = [] ∧
      (chat_loop_body p g (line :: rest)).exited = true ∧
      (chat_loop_body p g (line :: rest)).console
        = [ConsoleEvent.text "You: ", ConsoleEvent.text "Chatbot: Goodbye!"]) ∧
    (¬(pyLower line = "exit" ∨ pyLower line = "quit") →
      (chat_loop_body p g (line :: rest)).responded
        = line :: (chat_loop_body p (generate_response p g line).gen rest).responded ∧
      ConsoleEvent.text ("Chatbot: " ++ (generate_response p g line).ret)
        ∈ (chat_loop_body p g (line :: rest)).console) := by
  constructor
  · intro hx
    have ht : exitTest line = true := (exitTest_iff line).2 hx
    simp [chat_loop_body, ht]
  · intro hx
    have hf : exitTest line = false := by
      cases hE : exitTest line
      · rfl
      · exact absurd ((exitTest_iff line).1 hE) hx
    exact ⟨by simp [chat_loop_body, hf], by simp [chat_loop_body, hf]⟩

/-- Witness for claim C5: an upper-case QUIT exits without a response
call, and an ordinary line is responded to. -/
theorem claim5_witness :
    ((chat_loop_body (fun _ _ => Except.ok [("output", "done")]) ⟨fun _ => "s", 0⟩
        ("QUIT" :: ["later line"])).responded = [] ∧
     (chat_loop_body (fun _ _ => Except.ok [("output", "done")]) ⟨fun _ => "s", 0⟩
        ("QUIT" :: ["later line"])).sessions = [] ∧
     (chat_loop_body (fun _ _ => Except.ok [("output", "done")]) ⟨fun _ => "s", 0⟩
        ("QUIT" :: ["later line"])).exited = true ∧
     (chat_loop_body (fun _ _ => Except.ok [("output", "done")]) ⟨fun _ => "s", 0⟩
        ("QUIT" :: ["later line"])).console
        = [ConsoleEvent.text "You: ", ConsoleEvent.text "Chatbot: Goodbye!"]) ∧
    ((chat_loop_body (fun _ _ => Except.ok [("output", "done")]) ⟨fun _ => "s", 0⟩
        ("hello" :: [])).responded
        = "hello" :: (chat_loop_body (fun _ _ => Except.ok [("output", "done")])
            (generate_response (fun _ _ => Except.ok [("output", "done")])
              ⟨fun _ => "s", 0⟩ "hello").gen []).responded ∧
     ConsoleEvent.text ("Chatbot: " ++ (generate_response (fun _ _ => Except.ok [("output", "done")])
         ⟨fun _ => "s", 0⟩ "hello").ret)
        ∈ (chat_loop_body (fun _ _ => Except.ok [("output", "done")]) ⟨fun _ => "s", 0⟩
            ("hello" :: [])).console) :=
  ⟨(claim5_loop_exit (fun _ _ => Except.ok [("output", "done")]) ⟨fun _ => "s", 0⟩
      "QUIT" ["later line"]).1 (Or.inr (by decide)),
   (claim5_loop_exit (fun _ _ => Except.ok [("output", "done")]) ⟨fun _ => "s", 0⟩
      "hello" []).2 (by decide)⟩

/-- Claim C10: the exit test is exact equality of the lowercased whole
line with exit or quit; whitespace-padded variants and phrases
containing the token do not terminate the loop and are forwarded to
`generate_response`. -/
theorem claim10_exact_exit_match (p : Pipeline) (g : UuidGen) (rest : List String) :
    (∀ line : String, exitTest line = true ↔ (pyLower line = "exit" ∨ pyLower line = "quit")) ∧
    exitTest " exit " = false ∧
    exitTest "exit now" = false ∧
    exitTest "Exit" = true ∧
    (∀ line, exitTest line = false →
      (chat_loop_body p g (line :: rest)).responded
        = line :: (chat_loop_body p (generate_response p g line).gen rest).responded) := by
  refine ⟨exitTest_iff, by decide, by decide, by decide, ?_⟩
  intro line h
  simp [chat_loop_body, h]

/-- Witness for claim C10: the padded line is forwarded, not treated as
an exit command. -/
theorem claim10_witness :
    (chat_loop_body (fun _ _ => Except.ok [("output", "done")]) ⟨fun _ => "s", 0⟩
        (" exit " :: [])).responded
      = " exit " :: (chat_loop_body (fun _ _ => Except.ok [("output", "done")])
          (generate_response (fun _ _ => Except.ok [("output", "done")])
            ⟨fun _ => "s", 0⟩ " exit ").gen []).responded :=
  (claim10_exact_exit_match (fun _ _ => Except.ok [("output", "done")])
      ⟨fun _ => "s", 0⟩ []).2.2.2.2 " exit " (by decide)

/-- Claim C7: two successive calls to the session-identifier generator
return distinct values, provided the underlying uuid source does not
repeat itself across the two draws (the sole uniqueness assumption the
code delegates to `uuid.uuid4`). -/
theorem claim7_successive_ids_distinct (g : UuidGen)
    (h : g.stream g.next ≠ g.stream (g.next + 1)) :
    (get_session_id g).1 ≠ (get_session_id (get_session_id g).2).1 := by
  simpa [get_session_id] using h

/-- Witness for claim C7 at a concrete non-repeating uuid stream. -/
theorem claim7_witness :
    (get_session_id ⟨fun n => String.mk (List.replicate n 'b'), 0⟩).1
      ≠ (get_session_id (get_session_id ⟨fun n => String.mk (List.replicate n 'b'), 0⟩).2).1 :=
  claim7_successive_ids_distinct ⟨fun n => String.mk (List.replicate n 'b'), 0⟩ (by decide)

/-- The sessions minted along a loop run are consecutive draws of the
uuid stream starting at the initial position. -/
theorem chat_loop_body_sessions (p : Pipeline) (lines : List String) :
    ∀ g : UuidGen, ∃ k,
      (chat_loop_body p g lines).sessions = (List.range' g.next k).map g.stream := by
  induction lines with
  | nil => exact fun g => ⟨0, rfl⟩
  | cons line rest ih =>
    intro g
    by_cases h : exitTest line = true
    · exact ⟨0, by simp [chat_loop_body, h]⟩
    · have hf : exitTest line = false := by simpa using h
      obtain ⟨k, hk⟩ := ih (generate_response p g line).gen
      have hgen := generate_response_gen_session p g line
      rw [hgen.1] at hk
      refine ⟨k + 1, ?_⟩
      simp [chat_loop_body, hf, hgen.1, hgen.2, List.range']
      simpa using hk

/-- Claim C6: every `generate_response` call binds the pipeline to a
freshly drawn session identifier (the next uuid, advancing the source),
the identifiers of a whole run are consecutive uuid draws, and when the
uuid source never repeats a value no session identifier recurs across
two turns of the run. -/
theorem claim6_fresh_session_per_turn (p : Pipeline) (g : UuidGen) (lines : List String)
    (hinj : ∀ i j, g.stream i = g.stream j → i = j) :
    (∀ line, (generate_response p g line).session = g.stream g.next ∧
             (generate_response p g line).gen = ⟨g.stream, g.next + 1⟩) ∧
    (∃ k, (chat_loop p g lines).sessions = (List.range' g.next k).map g.stream) ∧
    (chat_loop p g lines).sessions.Nodup := by
  have hsess : (chat_loop p g lines).sessions = (chat_loop_body p g lines).sessions := rfl
  obtain ⟨k, hk⟩ := chat_loop_body_sessions p lines g
  refine ⟨?_, ⟨k, by rw [hsess, hk]⟩, ?_⟩
  · intro line
    exact ⟨(generate_response_gen_session p g line).2, (generate_response_gen_session p g line).1⟩
  · rw [hsess, hk]
    exact (List.nodup_range' g.next k).map fun a b hab => hinj a b hab

/-- Witness for claim C6: a three-turn run on an injective uuid stream
has pairwise distinct session identifiers. -/
theorem claim6_witness :
    (chat_loop (fun _ _ => Except.ok [("output", "fine")])
        ⟨fun n => String.mk (List.replicate n 'b'), 0⟩
        ["one", "two", "exit"]).sessions.Nodup :=
  (claim6_fresh_session_per_turn (fun _ _ => Except.ok [("output", "fine")])
      ⟨fun n => String.mk (List.replicate n 'b'), 0⟩
      ["one", "two", "exit"]
      (fun i j h => replicate_b_inj i j h)).2.2

set_option maxRecDepth 40000 in
/-- Counterexample for claim C8 as stated: the rendered Cypher
query-generation prompt embeds the forwarded question verbatim — for the
input about orders this month it still contains the words this month and
does not contain the month name and year (here a run dated January
2025): no substitution is performed by this code. -/
theorem claim8_counterexample :
    ("this month".data <:+: (renderCypherPrompt "Show me orders this month").data) ∧
    ¬ ("January 2025".data <:+: (renderCypherPrompt "Show me orders this month").data) := by
  constructor
  · exact (by decide : "this month".data <:+: "Show me orders this month".data).trans
      ⟨cypherPromptPartA.data, cypherPromptPartB.data, by
        simp [renderCypherPrompt, String.data_append]⟩
  · intro h
    have hmem : 'J' ∈ (renderCypherPrompt "Show me orders this month").data :=
      h.sublist.subset (by decide)
    have hsplit : 'J' ∈ cypherPromptPartA.data ∨
        'J' ∈ ("Show me orders this month" : String).data ∨ 'J' ∈ cypherPromptPartB.data := by
      simpa [renderCypherPrompt, String.data_append, List.mem_append] using hmem
    rcases hsplit with h1 | h2 | h3
    · exact absurd h1 (by decide)
    · exact absurd h2 (by decide)
    · exact absurd h3 (by decide)

/-- Claim C8 as amended: the Cypher query-generation prompt embeds the
tool input verbatim with no date rewriting (substitution of relative
dates is delegated to the LLM), while the agent prompt built at startup
does embed the current month name and year in its date-interpretation
guideline. -/
theorem claim8_date_embedding (month : String) (year : Nat) (q : String) :
    renderCypherPrompt q = cypherPromptPartA ++ q ++ cypherPromptPartB ∧
    (∃ a b, agentPromptText month year = a ++ (month ++ " " ++ toString year) ++ b) := by
  refine ⟨rfl, agentPromptPart0,
    agentPromptPart2 ++ toString year ++ agentPromptPart3 ++ month ++ agentPromptPart4, ?_⟩
  simp [agentPromptText, agentPromptPart1, String.append_assoc]

end Neo4jChatbot
